import Mathlib
/-!
Shallow embedding of the `sslvpn_playwright` repository (files
`lib/authentication.py` and `lib/pages.py`) and proofs about it.

Every awaited browser-engine call is modelled by its outcome, a value of
`Except Exc α`: `.ok` when the call returns, `.error ex` when it raises the
Python exception modelled by `ex`.  Sequential `await` statements inside a
`try` block are composed with `seqE` (the first raising step aborts the
rest).  Python `try/except` blocks become pattern matches on the composed
outcome.
-/
/--
Model of the Python exception classes that can flow through the code:
`AuthenticationError` and `PageNavigationError` are defined in the
repository; `pwTimeout` and `pwError` model the automation engine's
`playwright.async_api.TimeoutError` and `Error` (in Playwright for Python,
`TimeoutError` derives from Playwright's `Error`, which derives from
`Exception`; it is NOT a subclass of the Python builtin `TimeoutError`);
`builtinTimeout` models the Python builtin `TimeoutError`; `otherError`
models any other `Exception`.
-/
inductive Exc where
  | authError (msg : String)
  | navError (msg : String)
  | pwTimeout (msg : String)
  | pwError (msg : String)
  | builtinTimeout (msg : String)
  | otherError (msg : String)
deriving DecidableEq, Repr
/-- Python `str(e)` for each modelled exception: its message. -/
def excMsg : Exc → String
  | .authError m => m
  | .navError m => m
  | .pwTimeout m => m
  | .pwError m => m
  | .builtinTimeout m => m
  | .otherError m => m
/-- Whether a raised exception is caught by Python `except TimeoutError:`,
i.e. is an instance of the builtin `TimeoutError` class.  None of the other
modelled classes derive from the builtin `TimeoutError`. -/
def isBuiltinTimeoutError : Exc → Bool
  | .builtinTimeout _ => true
  | _ => false
/-- Sequencing of two awaited statements inside one `try` block: if the
first raises, the second never runs. -/
def seqE (x y : Except Exc Unit) : Except Exc Unit :=
  match x with
  | .error ex => .error ex
  | .ok _ => y
/-- A `try: body except Exception as e: raise AuthenticationError(pre + str(e))`
wrapper, as used by `Authentication.auth` and `Authentication._sms_authentication`. -/
def wrapAuth (x : Except Exc Unit) (pre : String) : Except Exc Unit :=
  match x with
  | .ok _ => .ok ()
  | .error ex => .error (.authError (pre ++ excMsg ex))
/-- A `try: body except Exception as e: raise PageNavigationError(pre + str(e))`
wrapper, as used by the `PageNavigator` methods. -/
def wrapNav (x : Except Exc Unit) (pre : String) : Except Exc Unit :=
  match x with
  | .ok _ => .ok ()
  | .error ex => .error (.navError (pre ++ excMsg ex))
/-- Python truthiness of an `os.getenv` result: `None` and the empty
string are falsy, every other string is truthy. -/
def truthy : Option String → Bool
  | none => false
  | some s => s != ""
/-- The process environment as read by the repository via `os.getenv`. -/
structure Env where
  AUTH_URL : Option String
  LOGIN_ALIAS : Option String
  USERNAME : Option String
  PASSWORD : Option String
  CONSOLE_URL : Option String
  SSL_VPN_CONSOLE_URL : Option String
  SMS_CODE : Option String
deriving DecidableEq, Repr
/-- The attributes stored on an `Authentication` instance by `__init__`. -/
structure Authentication where
  headless : Bool
  url : Option String
  login_alias : Option String
  username : Option String
  password : Option String
deriving DecidableEq, Repr
/-- `Authentication.__init__`: reads `AUTH_URL`, `LOGIN_ALIAS`, `USERNAME`
and `PASSWORD` from the environment, then raises `AuthenticationError`
unless `all([login_alias, username, password])` holds (`AUTH_URL` and the
navigation URLs are not checked). -/
def Authentication.init (env : Env) (headless : Bool) : Except Exc Authentication :=
  if truthy env.LOGIN_ALIAS && truthy env.USERNAME && truthy env.PASSWORD then
    .ok ⟨headless, env.AUTH_URL, env.LOGIN_ALIAS, env.USERNAME, env.PASSWORD⟩
  else
    .error (.authError
      "Missing required environment variables: LOGIN_ALIAS, USERNAME, PASSWORD")
/-- Python `str.strip()`: remove leading and trailing whitespace. -/
def pyStrip (s : String) : String :=
  String.mk (((s.data.dropWhile Char.isWhitespace).reverse.dropWhile
    Char.isWhitespace).reverse)
/-- The console-input arm of `Authentication._get_sms_code`: read a line
from the operator, strip it, and raise `AuthenticationError` when the
result is empty or shorter than 4 characters (`if not sms_code or
len(sms_code) < 4`).  The `Bool` in the result is an observation flag: it
is `true` exactly on values produced by this interactive console path. -/
def consoleSmsCode (consoleInput : String) : Except Exc (String × Bool) :=
  let code := pyStrip consoleInput
  if code = "" ∨ code.length < 4 then
    .error (.authError "Invalid SMS code provided")
  else
    .ok (code, true)
/-- `Authentication._get_sms_code`: if `os.getenv('SMS_CODE')` is truthy
(present and non-empty) return it unchanged; otherwise fall through to the
console-input path. -/
def get_sms_code (smsCodeEnv : Option String) (consoleInput : String) :
    Except Exc (String × Bool) :=
  match smsCodeEnv with
  | some c => if c = "" then consoleSmsCode consoleInput else .ok (c, false)
  | none => consoleSmsCode consoleInput
/-- `Authentication._headless_sms_input`: obtain the code via
`_get_sms_code`, then fill it into the SMS input field.  The result keeps
the filled code and the console-path flag for observation. -/
def headless_sms_input (smsCodeEnv : Option String) (consoleInput : String)
    (fillSmsField : String → Except Exc Unit) : Except Exc (String × Bool) :=
  match get_sms_code smsCodeEnv consoleInput with
  | .error ex => .error ex
  | .ok (code, used) =>
    match fillSmsField code with
    | .error ex => .error ex
    | .ok _ => .ok (code, used)
/-- Semantics of the engine call
`page.wait_for_function("document.querySelector(...).value.length > 5", timeout=60000)`
made by `Authentication._browser_sms_input`.  `content t` is the value of
the designated input field at millisecond `t`; the call returns once the
predicate holds at some sampled instant within the bound and raises the
engine's timeout error otherwise. -/
def waitForSmsFunction (content : Nat → String) : Except Exc Unit :=
  if ∃ t : Nat, t ≤ 60000 ∧ 5 < (content t).length then
    .ok ()
  else
    .error (.pwTimeout "Timeout 60000ms exceeded.")
/-- `Authentication._browser_sms_input`: wait on the in-page predicate;
no code value is ever read or returned. -/
def browser_sms_input (content : Nat → String) : Except Exc Unit :=
  waitForSmsFunction content
/-- Discard the observed value of the headless SMS step, keeping only
success or the raised exception (the caller `_sms_authentication` ignores
the helper's return value). -/
def toUnit (x : Except Exc (String × Bool)) : Except Exc Unit :=
  match x with
  | .error ex => .error ex
  | .ok _ => .ok ()
/-- Outcomes of the browser-engine calls made during one run of
`Authentication.auth`, together with the non-engine inputs the flow reads
(`SMS_CODE` environment variable, operator console line, live content of
the SMS input field). -/
structure AuthEngine where
  gotoLogin : Except Exc Unit
  waitLoginForm : Except Exc Unit
  fillAlias : Except Exc Unit
  fillUsername : Except Exc Unit
  fillPassword : Except Exc Unit
  clickLoginButton : Except Exc Unit
  waitLoadAfterLogin : Except Exc Unit
  clickSmsButton : Except Exc Unit
  smsCodeEnv : Option String
  consoleInput : String
  fillSmsField : String → Except Exc Unit
  smsFieldContent : Nat → String
  clickFinalLogin : Except Exc Unit
  waitLoadAfterSms : Except Exc Unit
/-- `Authentication._login`: goto the login URL, wait for the form, fill
the three credential fields, click the login button, wait for the load. -/
def login (e : AuthEngine) : Except Exc Unit :=
  seqE e.gotoLogin
    (seqE e.waitLoginForm
      (seqE e.fillAlias
        (seqE e.fillUsername
          (seqE e.fillPassword
            (seqE e.clickLoginButton e.waitLoadAfterLogin)))))
/-- The body of the `try` block of `Authentication._sms_authentication`:
click the SMS button, register the one-shot alert-dismiss dialog handler
(a pure registration that cannot raise, so it has no outcome here), run
the mode-selected code-entry helper, click the final login control, wait
for the load. -/
def smsBody (headless : Bool) (e : AuthEngine) : Except Exc Unit :=
  seqE e.clickSmsButton
    (seqE
      (if headless then
        toUnit (headless_sms_input e.smsCodeEnv e.consoleInput e.fillSmsField)
      else
        browser_sms_input e.smsFieldContent)
      (seqE e.clickFinalLogin e.waitLoadAfterSms))
/-- `Authentication._sms_authentication`: run the body and re-raise any
exception as `AuthenticationError`. -/
def sms_authentication (headless : Bool) (e : AuthEngine) : Except Exc Unit :=
  wrapAuth (smsBody headless e) "SMS authentication failed: "
/-- `Authentication.auth`: run `_login` then `_sms_authentication` and
re-raise any exception as `AuthenticationError`. -/
def auth (headless : Bool) (e : AuthEngine) : Except Exc Unit :=
  wrapAuth (seqE (login e) (sms_authentication headless e))
    "Authentication process failed: "
/-- All engine calls made by `_login` return normally. -/
def loginStepsOk (e : AuthEngine) : Prop :=
  e.gotoLogin = .ok () ∧ e.waitLoginForm = .ok () ∧ e.fillAlias = .ok () ∧
  e.fillUsername = .ok () ∧ e.fillPassword = .ok () ∧
  e.clickLoginButton = .ok () ∧ e.waitLoadAfterLogin = .ok ()
/-- The mode-selected code-resolution step succeeds: in headless mode the
code is obtained and filled without raising, in interactive mode the
in-page wait succeeds. -/
def codeResolutionOk (headless : Bool) (e : AuthEngine) : Prop :=
  if headless then
    ∃ r, headless_sms_input e.smsCodeEnv e.consoleInput e.fillSmsField = .ok r
  else
    browser_sms_input e.smsFieldContent = .ok ()
/-- All steps of `_sms_authentication` return normally. -/
def smsStepsOk (headless : Bool) (e : AuthEngine) : Prop :=
  e.clickSmsButton = .ok () ∧ codeResolutionOk headless e ∧
  e.clickFinalLogin = .ok () ∧ e.waitLoadAfterSms = .ok ()
/-- Outcomes of the engine calls made by `PageNavigator.navigate_to_vpc_page`
(console goto, the popup probe and its two clicks, the VPC button click,
the final load wait). -/
structure NavEngine where
  gotoConsole : Except Exc Unit
  waitPopupCheckbox : Except Exc Unit
  clickPopupCheckbox : Except Exc Unit
  clickPopupConfirm : Except Exc Unit
  clickVpcButton : Except Exc Unit
  waitLoadVpc : Except Exc Unit
/-- `PageNavigator._remove_popup_if_exists`: probe for the dismiss
checkbox (5s timeout), click it and the confirming control; a raised
exception is swallowed when it is an instance of the builtin
`TimeoutError` (the `except TimeoutError:` clause) and re-raised
otherwise (the `except Exception: ... raise` clause). -/
def remove_popup_if_exists (e : NavEngine) : Except Exc Unit :=
  match seqE e.waitPopupCheckbox (seqE e.clickPopupCheckbox e.clickPopupConfirm) with
  | .ok _ => .ok ()
  | .error ex => if isBuiltinTimeoutError ex then .ok () else .error ex
/-- `PageNavigator.navigate_to_vpc_page`: goto the console URL, attempt
popup dismissal, click the VPC platform button, wait for the load;
any exception is re-raised as `PageNavigationError`. -/
def navigate_to_vpc_page (e : NavEngine) : Except Exc Unit :=
  wrapNav
    (seqE e.gotoConsole
      (seqE (remove_popup_if_exists e)
        (seqE e.clickVpcButton e.waitLoadVpc)))
    "VPC page navigation failed: "
/-- One `tr` element of the rendered table, as seen by the row loop of
`PageNavigator.extract_all_vpcs`.  `fails` models a row on which some
awaited call inside the per-row `try` block raises (with the given
message); `elem` gives the name-cell query result (`none` when the
selector `td:nth-child(2) > span` matches nothing, otherwise the
element's `text_content()`) and the `text_content()` of each `td` cell. -/
inductive RowInput where
  | fails (msg : String)
  | elem (nameCell : Option (Option String)) (cells : List (Option String))
deriving DecidableEq, Repr
/-- A Python dict value stored in a VPC record: a string or an int. -/
inductive Value where
  | s (v : String)
  | n (v : Nat)
deriving DecidableEq, Repr
/-- A `vpc_data` dict in insertion order (all keys are distinct). -/
abbrev Record := List (String × Value)
/-- Python `t.strip() if t else ''` applied to a `text_content()` result. -/
def stripOpt : Option String → String
  | some t => pyStrip t
  | none => ""
/-- The `for j, col in enumerate(columns)` loop of `extract_all_vpcs`:
one `column_{j+1}` entry per `td` cell, in order. -/
def columnEntries : List (Option String) → Nat → Record
  | [], _ => []
  | c :: cs, j =>
    ("column_" ++ toString (j + 1), Value.s (stripOpt c)) :: columnEntries cs (j + 1)
/-- The `vpc_data` dict built for row `i` (0-based) with name-cell text
`nameText`: keys `name`, `row_index`, then `column_1`, `column_2`, …. -/
def buildRecord (nameText : Option String) (cells : List (Option String))
    (i : Nat) : Record :=
  ("name", Value.s (stripOpt nameText)) :: ("row_index", Value.n (i + 1)) ::
    columnEntries cells 0
/-- The body of the per-row `try` block for row `i` (0-based): a raising
row yields `.error`; a row whose name-cell query returns no element yields
no record (the `if vpc_name_element:` guard has no else branch); otherwise
the built record. -/
def extractRow : RowInput → Nat → Except String (Option Record)
  | .fails m, _ => .error m
  | .elem none _, _ => .ok none
  | .elem (some nameText) cells, i => .ok (some (buildRecord nameText cells i))
/-- The `for i, row in enumerate(vpc_rows)` loop: collect records in order;
a raising row is logged as a warning (its 1-based index is recorded in the
second component) and skipped with `continue`. -/
def extractLoop : List RowInput → Nat → List Record × List Nat
  | [], _ => ([], [])
  | r :: rs, i =>
    let rest := extractLoop rs (i + 1)
    match extractRow r i with
    | .error _ => (rest.1, (i + 1) :: rest.2)
    | .ok none => rest
    | .ok (some record) => (record :: rest.1, rest.2)
/-- Outcomes of the two engine calls `extract_all_vpcs` makes before its
row loop: the 10s wait for the table body and the row query. -/
structure ExtractEngine where
  waitTableBody : Except Exc Unit
  queryRows : Except Exc (List RowInput)
/-- `PageNavigator.extract_all_vpcs`: wait for the table body, query the
rows, run the per-row loop; any exception escaping the outer `try` block
is re-raised as `PageNavigationError`.  The result carries the collected
records and the 1-based indices of the rows logged as warnings. -/
def extract_all_vpcs (e : ExtractEngine) : Except Exc (List Record × List Nat) :=
  match e.waitTableBody with
  | .error ex => .error (.navError ("VPC extraction failed: " ++ excMsg ex))
  | .ok _ =>
    match e.queryRows with
    | .error ex => .error (.navError ("VPC extraction failed: " ++ excMsg ex))
    | .ok rows => .ok (extractLoop rows 0)
/-- The `row_index` entry of a built record. -/
def recIndex (record : Record) : Nat :=
  match record.lookup "row_index" with
  | some (Value.n i) => i
  | _ => 0

/-- An engine run on which every call of the authentication flow returns
normally and the `SMS_CODE` environment variable supplies the code. -/
def okAuthEngine : AuthEngine :=
  ⟨.ok (), .ok (), .ok (), .ok (), .ok (), .ok (), .ok (), .ok (),
    some "123456", "", fun _ => .ok (), fun _ => "123456", .ok (), .ok ()⟩

/-- An engine run in interactive mode on which the SMS input field stays
empty at every sampled instant and every other call returns normally. -/
def idleFieldAuthEngine : AuthEngine :=
  ⟨.ok (), .ok (), .ok (), .ok (), .ok (), .ok (), .ok (), .ok (),
    none, "", fun _ => .ok (), fun _ => "", .ok (), .ok ()⟩

/-- A navigation run on which the popup dismiss-checkbox probe times out
after its 5s bound (the engine raises its own timeout class) and every
other call returns normally. -/
def popupTimeoutNav : NavEngine :=
  ⟨.ok (), .error (.pwTimeout "Timeout 5000ms exceeded."), .ok (), .ok (),
    .ok (), .ok ()⟩

/-- A navigation run identical to `popupTimeoutNav` except that the probe
raises the builtin `TimeoutError` class instead of the engine's. -/
def popupBuiltinTimeoutNav : NavEngine :=
  ⟨.ok (), .error (.builtinTimeout "timed out"), .ok (), .ok (), .ok (), .ok ()⟩

/-- A five-row table whose second row raises during extraction. -/
def fiveRowsSecondFails : List RowInput :=
  [RowInput.elem (some (some "vpc-a")) [some "1", some "vpc-a"],
   RowInput.fails "boom",
   RowInput.elem (some (some "vpc-c")) [some "3", some "vpc-c"],
   RowInput.elem (some (some "vpc-d")) [some "4", some "vpc-d"],
   RowInput.elem (some (some "vpc-e")) [some "5", some "vpc-e"]]

/-- An environment supplying the three credential fields but no URL at
all. -/
def envNoUrls : Env :=
  ⟨none, some "alias", some "user", some "pass", none, none, none⟩

theorem seqE_ok_iff (x y : Except Exc Unit) :
    seqE x y = .ok () ↔ x = .ok () ∧ y = .ok () := by
  cases x <;> simp [seqE]

theorem wrapAuth_ok_iff (x : Except Exc Unit) (pre : String) :
    wrapAuth x pre = .ok () ↔ x = .ok () := by
  cases x <;> simp [wrapAuth]

theorem wrapAuth_error_shape (x : Except Exc Unit) (pre : String) (ex : Exc)
    (h : wrapAuth x pre = .error ex) : ∃ m, ex = Exc.authError m := by
  cases x with
  | ok u => simp [wrapAuth] at h
  | error e0 =>
    simp [wrapAuth] at h
    exact ⟨pre ++ excMsg e0, h.symm⟩

theorem wrapNav_error_shape (x : Except Exc Unit) (pre : String) (ex : Exc)
    (h : wrapNav x pre = .error ex) : ∃ m, ex = Exc.navError m := by
  cases x with
  | ok u => simp [wrapNav] at h
  | error e0 =>
    simp [wrapNav] at h
    exact ⟨pre ++ excMsg e0, h.symm⟩

theorem toUnit_ok_iff (x : Except Exc (String × Bool)) :
    toUnit x = .ok () ↔ ∃ r, x = .ok r := by
  cases x <;> simp [toUnit]

theorem login_ok_iff (e : AuthEngine) : login e = .ok () ↔ loginStepsOk e := by
  simp [login, loginStepsOk, seqE_ok_iff, and_assoc]

theorem smsBody_ok_iff (headless : Bool) (e : AuthEngine) :
    smsBody headless e = .ok () ↔ smsStepsOk headless e := by
  simp only [smsBody, smsStepsOk, codeResolutionOk, seqE_ok_iff, and_assoc]
  cases headless <;> simp [toUnit_ok_iff]

theorem recIndex_buildRecord (nameText : Option String)
    (cells : List (Option String)) (i : Nat) :
    recIndex (buildRecord nameText cells i) = i + 1 := rfl

/-- A row that is present, name-bearing and non-raising always contributes
its record to the loop result, whatever the other rows do. -/
theorem extractLoop_mem (rows : List RowInput) (s i : Nat) (nt : Option String)
    (cells : List (Option String))
    (h : rows[i]? = some (RowInput.elem (some nt) cells)) :
    buildRecord nt cells (s + i) ∈ (extractLoop rows s).1 := by
  induction rows generalizing s i with
  | nil => simp at h
  | cons r rs ih =>
    cases i with
    | zero =>
      simp at h
      subst h
      simp [extractLoop, extractRow]
    | succ j =>
      simp at h
      have hm := ih (s + 1) j h
      have harith : s + 1 + j = s + (j + 1) := by omega
      rw [harith] at hm
      cases r with
      | fails m => simpa [extractLoop, extractRow] using hm
      | elem nc cs =>
        cases nc with
        | none => simpa [extractLoop, extractRow] using hm
        | some t =>
          simp only [extractLoop, extractRow]
          exact List.mem_cons_of_mem _ hm

/-- When every row is name-bearing and non-raising, the loop yields one
record per row, indices `s+1, …, s+N` in order, and no warning. -/
theorem extractLoop_all_good (rows : List RowInput) (s : Nat)
    (h : ∀ (i : Nat) (r : RowInput), rows[i]? = some r →
      ∃ nt cells, r = RowInput.elem (some nt) cells) :
    (extractLoop rows s).1.map recIndex = List.range' (s + 1) rows.length ∧
    (extractLoop rows s).1.length = rows.length ∧
    (extractLoop rows s).2 = [] := by
  induction rows generalizing s with
  | nil => simp [extractLoop]
  | cons r rs ih =>
    obtain ⟨nt, cells, rfl⟩ := h 0 r (by simp)
    have ht : ∀ (i : Nat) (r2 : RowInput), rs[i]? = some r2 →
        ∃ nt cells, r2 = RowInput.elem (some nt) cells := by
      intro i r2 h2
      exact h (i + 1) r2 (by simpa using h2)
    obtain ⟨h1, h2, h3⟩ := ih (s + 1) ht
    refine ⟨?_, ?_, ?_⟩ <;>
      simp [extractLoop, extractRow, recIndex_buildRecord, h1, h2, h3,
        List.range'_succ]

/-- When exactly one row (position `k`, 0-based) raises and every other
row is name-bearing and non-raising, the loop yields the other rows'
records in order (indices `s+1, …, s+N` minus `s+k+1`), one fewer record
than rows, and exactly one warning, for the raising row. -/
theorem extractLoop_one_fail (rows : List RowInput) (s k : Nat) (m : String)
    (hk : rows[k]? = some (RowInput.fails m))
    (h : ∀ (i : Nat) (r : RowInput), i ≠ k → rows[i]? = some r →
      ∃ nt cells, r = RowInput.elem (some nt) cells) :
    (extractLoop rows s).1.map recIndex
      = (List.range' (s + 1) rows.length).filter (fun x => x ≠ s + k + 1) ∧
    (extractLoop rows s).1.length = rows.length - 1 ∧
    (extractLoop rows s).2 = [s + k + 1] := by
  induction rows generalizing s k with
  | nil => simp at hk
  | cons r rs ih =>
    cases k with
    | zero =>
      simp at hk
      subst hk
      have ht : ∀ (i : Nat) (r2 : RowInput), rs[i]? = some r2 →
          ∃ nt cells, r2 = RowInput.elem (some nt) cells := by
        intro i r2 h2
        exact h (i + 1) r2 (by omega) (by simpa using h2)
      obtain ⟨g1, g2, g3⟩ := extractLoop_all_good rs (s + 1) ht
      refine ⟨?_, ?_, ?_⟩
      · simp only [extractLoop, extractRow, g1, g3, List.length_cons]
        rw [List.range'_succ, List.filter_cons]
        simp only [Nat.add_zero, ne_eq, not_true_eq_false, decide_False,
          Bool.false_eq_true, if_false]
        symm
        rw [List.filter_eq_self]
        intro a ha
        have hmem := List.mem_range'_1.mp ha
        simp only [ne_eq, decide_eq_true_eq]
        omega
      · simp [extractLoop, extractRow, g2]
      · simp [extractLoop, extractRow, g3]
    | succ j =>
      have hk2 : rs[j]? = some (RowInput.fails m) := by simpa using hk
      obtain ⟨nt, cells, rfl⟩ := h 0 r (by omega) (by simp)
      have ht : ∀ (i : Nat) (r2 : RowInput), i ≠ j → rs[i]? = some r2 →
          ∃ nt cells, r2 = RowInput.elem (some nt) cells := by
        intro i r2 hij h2
        exact h (i + 1) r2 (by omega) (by simpa using h2)
      obtain ⟨g1, g2, g3⟩ := ih (s + 1) j hk2 ht
      have hlen : j < rs.length := by
        obtain ⟨hlt, -⟩ := List.getElem?_eq_some_iff.mp hk2
        exact hlt
      have harith : s + 1 + j + 1 = s + (j + 1) + 1 := by omega
      refine ⟨?_, ?_, ?_⟩
      · simp only [extractLoop, extractRow, List.map_cons, recIndex_buildRecord,
          g1, List.length_cons]
        rw [← harith, List.range'_succ, List.filter_cons]
        have hp : s + 1 ≠ s + 1 + j + 1 := by omega
        simp [hp]
      · simp only [extractLoop, extractRow, List.length_cons, g2]
        omega
      · simp only [extractLoop, extractRow, g3]
        rw [harith]

/-- The `column_k` keys of the cell entries built from position `j`
onwards: `column_{j+1}, …, column_{j+N}` in order. -/
theorem columnEntries_keys (cells : List (Option String)) (j : Nat) :
    (columnEntries cells j).map Prod.fst
      = (List.range' (j + 1) cells.length).map (fun t => "column_" ++ toString t) := by
  induction cells generalizing j with
  | nil => simp [columnEntries]
  | cons c cs ih =>
    simp [columnEntries, ih (j + 1), List.range'_succ]

/-- Claim C1: `auth` returns normally exactly when every engine call it
performs (login navigation, form wait, the three fills, the clicks, the
load waits, and the mode-selected code resolution) succeeds, and whenever
it raises, the raised exception is an `AuthenticationError`; no exception
of any other type escapes `auth`. -/
theorem C1_auth_uniform_error_wrapping (headless : Bool) (e : AuthEngine) :
    (auth headless e = .ok () ↔ loginStepsOk e ∧ smsStepsOk headless e) ∧
    (∀ ex : Exc, auth headless e = .error ex → ∃ m, ex = Exc.authError m) := by
  constructor
  · simp only [auth, sms_authentication]
    rw [wrapAuth_ok_iff, seqE_ok_iff, wrapAuth_ok_iff, login_ok_iff,
      smsBody_ok_iff]
  · intro ex h
    exact wrapAuth_error_shape _ _ _ h

/-- Witness for C1: on the all-succeeding engine run with an environment
code, `auth` completes successfully. -/
theorem C1_witness : auth true okAuthEngine = .ok () :=
  (C1_auth_uniform_error_wrapping true okAuthEngine).1.mpr
    ⟨⟨rfl, rfl, rfl, rfl, rfl, rfl, rfl⟩, rfl, ⟨("123456", false), rfl⟩,
      rfl, rfl⟩

/-- Claim C2: when exactly one row (0-based position `k`) raises during
extraction and every other row is name-bearing and non-raising,
`extract_all_vpcs` returns all other rows' records in their original
order, one fewer than the row count, carrying 1-based row indices
`1, …, N` without `k+1`; the raising row is logged as a single warning and
neither aborts the scan nor drops any other row's record. -/
theorem C2_one_failing_row_is_isolated (rows : List RowInput) (k : Nat)
    (m : String) (hk : rows[k]? = some (RowInput.fails m))
    (hgood : ∀ (i : Nat) (r : RowInput), i ≠ k → rows[i]? = some r →
      ∃ nt cells, r = RowInput.elem (some nt) cells) :
    ∃ records warnings,
      extract_all_vpcs ⟨.ok (), .ok rows⟩ = .ok (records, warnings) ∧
      records.length = rows.length - 1 ∧
      records.map recIndex
        = (List.range' 1 rows.length).filter (fun x => x ≠ k + 1) ∧
      warnings = [k + 1] ∧
      ∀ (i : Nat) (nt : Option String) (cells : List (Option String)),
        rows[i]? = some (RowInput.elem (some nt) cells) →
        buildRecord nt cells i ∈ records := by
  obtain ⟨h1, h2, h3⟩ := extractLoop_one_fail rows 0 k m hk hgood
  refine ⟨(extractLoop rows 0).1, (extractLoop rows 0).2, rfl, h2, ?_, ?_, ?_⟩
  · simpa using h1
  · simpa using h3
  · intro i nt cells hi
    have hm := extractLoop_mem rows 0 i nt cells hi
    simpa using hm

/-- Witness for C2: the concrete five-row table whose second row raises
yields exactly four records with row indices 1, 3, 4, 5 and one warning
for row 2. -/
theorem C2_witness :
    ∃ records warnings,
      extract_all_vpcs ⟨.ok (), .ok fiveRowsSecondFails⟩
        = .ok (records, warnings) ∧
      records.length = fiveRowsSecondFails.length - 1 ∧
      records.map recIndex
        = (List.range' 1 fiveRowsSecondFails.length).filter (fun x => x ≠ 1 + 1) ∧
      warnings = [1 + 1] ∧
      ∀ (i : Nat) (nt : Option String) (cells : List (Option String)),
        fiveRowsSecondFails[i]? = some (RowInput.elem (some nt) cells) →
        buildRecord nt cells i ∈ records := by
  refine C2_one_failing_row_is_isolated fiveRowsSecondFails 1 "boom" rfl ?_
  intro i r hne hi
  rcases i with _ | _ | _ | _ | _ | j
  · simp [fiveRowsSecondFails] at hi
    exact ⟨_, _, hi.symm⟩
  · exact absurd rfl hne
  · simp [fiveRowsSecondFails] at hi
    exact ⟨_, _, hi.symm⟩
  · simp [fiveRowsSecondFails] at hi
    exact ⟨_, _, hi.symm⟩
  · simp [fiveRowsSecondFails] at hi
    exact ⟨_, _, hi.symm⟩
  · simp [fiveRowsSecondFails] at hi

/-- Claim C3 (code bug): the popup probe's 5s timeout raises the
automation engine's own timeout class, which is not an instance of the
builtin `TimeoutError` that the `except TimeoutError:` clause of
`_remove_popup_if_exists` catches; the generic handler re-raises it, so
`navigate_to_vpc_page` raises `PageNavigationError` instead of proceeding.
Only a builtin `TimeoutError` would be swallowed as intended. -/
theorem C3_popup_timeout_not_swallowed :
    remove_popup_if_exists popupTimeoutNav
      = .error (.pwTimeout "Timeout 5000ms exceeded.") ∧
    navigate_to_vpc_page popupTimeoutNav
      = .error (.navError
          ("VPC page navigation failed: " ++ "Timeout 5000ms exceeded.")) ∧
    navigate_to_vpc_page popupBuiltinTimeoutNav = .ok () :=
  ⟨rfl, rfl, rfl⟩

/-- Claim C4: a non-empty environment-supplied code is returned
immediately by `_get_sms_code` with the console-input path never invoked
(the flag is `false`), and `_headless_sms_input` fills exactly that code
into the field. -/
theorem C4_env_code_bypasses_console (c consoleLine : String) (hc : c ≠ "")
    (fillSmsField : String → Except Exc Unit) (hf : fillSmsField c = .ok ()) :
    get_sms_code (some c) consoleLine = .ok (c, false) ∧
    headless_sms_input (some c) consoleLine fillSmsField = .ok (c, false) := by
  have h1 : get_sms_code (some c) consoleLine = .ok (c, false) := by
    simp [get_sms_code, hc]
  exact ⟨h1, by simp [headless_sms_input, h1, hf]⟩

/-- Witness for C4 at the concrete environment code `123456`. -/
theorem C4_witness :
    get_sms_code (some "123456") "typed" = .ok ("123456", false) ∧
    headless_sms_input (some "123456") "typed" (fun _ => .ok ())
      = .ok ("123456", false) :=
  C4_env_code_bypasses_console "123456" "typed" (by decide)
    (fun _ => .ok ()) rfl

/-- Claim C5: a console-supplied code that strips to fewer than 4
characters makes code acquisition raise `AuthenticationError`, and the
headless helper raises identically whatever the field fill would do, so
the code is never filled into the input field. -/
theorem C5_short_console_code_rejected (consoleLine : String)
    (hshort : (pyStrip consoleLine).length < 4) :
    consoleSmsCode consoleLine
      = .error (.authError "Invalid SMS code provided") ∧
    (∀ fillSmsField, headless_sms_input none consoleLine fillSmsField
      = .error (.authError "Invalid SMS code provided")) ∧
    (∀ fillSmsField, headless_sms_input (some "") consoleLine fillSmsField
      = .error (.authError "Invalid SMS code provided")) := by
  have h1 : consoleSmsCode consoleLine
      = .error (.authError "Invalid SMS code provided") := by
    unfold consoleSmsCode
    rw [if_pos (Or.inr hshort)]
  refine ⟨h1, ?_, ?_⟩ <;> intro f <;>
    simp [headless_sms_input, get_sms_code, h1]

/-- Witness for C5 at the concrete console line `" 12 "`. -/
theorem C5_witness :
    consoleSmsCode " 12 " = .error (.authError "Invalid SMS code provided") ∧
    (∀ fillSmsField, headless_sms_input none " 12 " fillSmsField
      = .error (.authError "Invalid SMS code provided")) ∧
    (∀ fillSmsField, headless_sms_input (some "") " 12 " fillSmsField
      = .error (.authError "Invalid SMS code provided")) :=
  C5_short_console_code_rejected " 12 " (by decide)

/-- Claim C6: interactive code resolution reads no code value — it
depends only on the live field content; it succeeds exactly when the
field content length exceeds 5 at some instant within the 60-second
bound, and when the predicate never holds within the bound it raises the
engine timeout, which `_sms_authentication` surfaces as
`AuthenticationError`. -/
theorem C6_browser_wait_bounded (content : Nat → String) :
    ((∃ t : Nat, t ≤ 60000 ∧ 5 < (content t).length) →
      browser_sms_input content = .ok ()) ∧
    ((∀ t : Nat, t ≤ 60000 → (content t).length ≤ 5) →
      browser_sms_input content
        = .error (.pwTimeout "Timeout 60000ms exceeded.") ∧
      ∀ e : AuthEngine, e.smsFieldContent = content →
        e.clickSmsButton = .ok () →
        sms_authentication false e
          = .error (.authError
              ("SMS authentication failed: " ++ "Timeout 60000ms exceeded."))) := by
  constructor
  · intro h
    show waitForSmsFunction content = .ok ()
    unfold waitForSmsFunction
    exact if_pos h
  · intro h
    have hno : ¬ ∃ t : Nat, t ≤ 60000 ∧ 5 < (content t).length := by
      rintro ⟨t, ht, hlen⟩
      have := h t ht
      omega
    have hb : browser_sms_input content
        = .error (.pwTimeout "Timeout 60000ms exceeded.") := by
      show waitForSmsFunction content
          = .error (.pwTimeout "Timeout 60000ms exceeded.")
      unfold waitForSmsFunction
      exact if_neg hno
    refine ⟨hb, ?_⟩
    intro e hc hclick
    unfold sms_authentication smsBody
    rw [hclick, hc, hb]
    rfl

/-- Witness for C6: a field that already holds six characters satisfies
the wait, and an engine whose field stays empty forever makes
`_sms_authentication` in interactive mode raise `AuthenticationError`. -/
theorem C6_witness :
    browser_sms_input (fun _ => "123456") = .ok () ∧
    sms_authentication false idleFieldAuthEngine
      = .error (.authError
          ("SMS authentication failed: " ++ "Timeout 60000ms exceeded.")) := by
  constructor
  · exact (C6_browser_wait_bounded (fun _ => "123456")).1 ⟨0, by decide⟩
  · exact ((C6_browser_wait_bounded (fun _ => "")).2 (fun t ht => by decide)).2
      idleFieldAuthEngine rfl rfl

/-- Claim C7 counterexample: an environment with no login URL and no
console or target URL but with alias, username and password present
passes construction without any error, so absence of a required URL is
not a construction-time error and the unvalidated configuration reaches
the later pipeline stages. -/
theorem C7_counterexample :
    Authentication.init envNoUrls true
      = .ok ⟨true, none, some "alias", some "user", some "pass"⟩ := rfl

/-- Claim C7 (amended): construction of the `Authentication` component
validates exactly the login alias, username and password (an empty string
counts as absent) and raises `AuthenticationError` when any of the three
is missing; the login URL is stored unvalidated and the navigation URLs
are read only later, at navigation time. -/
theorem C7_amended_credentials_only (env : Env) (headless : Bool) :
    (Authentication.init env headless
        = .ok ⟨headless, env.AUTH_URL, env.LOGIN_ALIAS, env.USERNAME,
            env.PASSWORD⟩
      ↔ truthy env.LOGIN_ALIAS = true ∧ truthy env.USERNAME = true ∧
        truthy env.PASSWORD = true) ∧
    (¬ (truthy env.LOGIN_ALIAS = true ∧ truthy env.USERNAME = true ∧
        truthy env.PASSWORD = true) →
      Authentication.init env headless
        = .error (.authError
            "Missing required environment variables: LOGIN_ALIAS, USERNAME, PASSWORD")) := by
  cases h1 : truthy env.LOGIN_ALIAS <;> cases h2 : truthy env.USERNAME <;>
    cases h3 : truthy env.PASSWORD <;>
      simp [Authentication.init, h1, h2, h3]

/-- Witness for the amended C7: a fully populated environment constructs
successfully. -/
theorem C7_amended_witness :
    Authentication.init
        ⟨some "http://x", some "a", some "u", some "p", some "c", some "s",
          none⟩ false
      = .ok ⟨false, some "http://x", some "a", some "u", some "p"⟩ :=
  (C7_amended_credentials_only
      ⟨some "http://x", some "a", some "u", some "p", some "c", some "s",
        none⟩ false).1.mpr (by decide)

/-- Claim C8: a rendered table body with zero rows yields an empty record
sequence (and no warnings) without raising, while failure of the table
body to appear within the 10s wait raises `PageNavigationError`. -/
theorem C8_empty_table_and_wait_timeout (m : String)
    (q : Except Exc (List RowInput)) :
    extract_all_vpcs ⟨.ok (), .ok []⟩ = .ok ([], []) ∧
    extract_all_vpcs ⟨.error (.pwTimeout m), q⟩
      = .error (.navError ("VPC extraction failed: " ++ m)) :=
  ⟨rfl, rfl⟩

/-- Claim C9: an `SMS_CODE` environment variable holding the empty string
behaves exactly like an absent one (the console path is taken), and a
non-empty environment code is returned verbatim, with no stripping and no
length validation. -/
theorem C9_env_code_verbatim (c consoleLine : String) (hc : c ≠ "") :
    get_sms_code (some "") consoleLine = get_sms_code none consoleLine ∧
    get_sms_code (some c) consoleLine = .ok (c, false) := by
  constructor
  · simp [get_sms_code]
  · simp [get_sms_code, hc]

/-- Witness for C9: the environment code `" 1 "` — shorter than 4 once
stripped — is still returned exactly as supplied. -/
theorem C9_witness :
    get_sms_code (some "") "9876" = get_sms_code none "9876" ∧
    get_sms_code (some " 1 ") "9876" = .ok (" 1 ", false) :=
  C9_env_code_verbatim " 1 " "9876" (by decide)

/-- Claim C10: a row whose name-cell selector matches nothing produces
neither a record nor a warning — it is silently omitted, so the result
can be shorter than the row count with no warning logged — and every
produced record has exactly the keys `name`, `row_index`, and `column_k`
for `k` from 1 to the row's cell count, in that order. -/
theorem C10_nameless_rows_and_record_keys (cells : List (Option String))
    (rows : List RowInput) (s i : Nat) (nt : Option String) :
    extractRow (RowInput.elem none cells) i = .ok none ∧
    extractLoop (RowInput.elem none cells :: rows) s
      = extractLoop rows (s + 1) ∧
    (buildRecord nt cells i).map Prod.fst
      = "name" :: "row_index"
          :: (List.range' 1 cells.length).map (fun t => "column_" ++ toString t) := by
  refine ⟨rfl, ?_, ?_⟩
  · simp [extractLoop, extractRow]
  · simp [buildRecord, columnEntries_keys]
